import Mathlib

/-!
Verification of the client orchestration logic of the translate repository.

The embedded code is the script section shared by
src/font/video-ai-platform/src/App.vue and src/unnamed/part_000:
the task-list upsert, the bounded polling loop of pollGenerateTask,
handleCancel, and the request/polling/result flow of handleGenerate.
The two component versions are embedded separately (namespaces AppVue and
Part000) so that their extensional agreement can be stated and proved.

The signed-URL codec of the backend has no source under src/ (only the
document src/backend/TUNNEL_SETUP.md describes it), so it is modelled from
the spec at the end of the definitions section.

Modelling conventions:
  - JavaScript objects that may lack a field are Lean structures with
    Option fields; absence of a field is Option.none.
  - The JS nullish coalescing operator (a ?? b) on such a field is
    Option.getD; the JS or operator (a || b) on strings treats the empty
    string as falsy and is the function jsOrS below.
  - Network effects are passed explicitly: the sequence of poll responses
    is a function from the attempt index to the response body, and the
    cancel/create requests are functions returning an Except value.
  - UI side effects (task list, progress bar value, status text) are an
    explicit state record threaded through the loop; the counters polls
    and sleeps record how many GET requests and sleep(2000) calls happen.
-/

/-- The JS String.prototype.toUpperCase for the ASCII status strings the
client compares against, mapping each character to upper case. -/
def jsToUpper (s : String) : String :=
  String.mk (s.data.map Char.toUpper)

/-- The JS expression (a || b) for an optional string a and string b:
the empty string is falsy in JS, so both a missing field and an empty
string fall back to b. -/
def jsOrS (a : Option String) (b : String) : String :=
  match a with
  | none => b
  | some s => if s = "" then b else s

/-- One entry of taskList: the object built by upsertTask. -/
structure TaskItem where
  taskId : String
  progress : Int
  stage : String
  status : String
deriving DecidableEq, Repr

/-- The patch object passed to upsertTask; every call site supplies
taskId, and the other fields are optional (JS ?? defaults apply). -/
structure Patch where
  taskId : String
  progress : Option Int
  stage : Option String
  status : Option String
deriving DecidableEq, Repr

/-- Body of a GET /api/generate/taskId poll response, with every field
optional as the client guards each access with ?. or || or ??. -/
structure PollData where
  status : Option String
  progress : Option Int
  stage : Option String
  detail : Option String
  content : Option String
  processTime : Option Int
  code : Option Int
deriving DecidableEq, Repr

/-- The generatedResult object recorded by handleGenerate on success. -/
structure GeneratedResult where
  code : Int
  processTime : Int
  content : String
deriving DecidableEq, Repr

/-- Client state touched by the polling loop: the task list, the two
loading refs, and counters of performed polls and sleep(2000) calls. -/
structure PollState where
  taskList : List TaskItem
  loadingPercent : Int
  loadingStatusText : String
  polls : Nat
  sleeps : Nat
deriving DecidableEq, Repr

/-- Initial values of the refs in the script setup. -/
def initState : PollState :=
  { taskList := [], loadingPercent := 0, loadingStatusText := "初始化连接...",
    polls := 0, sleeps := 0 }

/-- Outcome of pollGenerateTask: the returned data on SUCCESS, or the
message of the thrown Error otherwise. -/
inductive PollResult where
  | ok (d : PollData)
  | err (msg : String)
deriving DecidableEq, Repr

/-- The reactive projectData record (the fields sent to the backend). -/
structure ProjectData where
  url : String
  prompt : String
  title : String
  type : String
  engine : String
  timeRange : List Int
  enableOCR : Bool
  enhanceAudio : Bool
deriving DecidableEq, Repr

/-- The POST /api/generate request body built by handleGenerate. -/
structure Payload where
  video_url : String
  params : ProjectData
  timestamp : Int
deriving DecidableEq, Repr

/-- An axios error as the catch blocks read it: optional
response.data.detail and optional message. -/
structure AxiosErr where
  detail : Option String
  message : Option String
deriving DecidableEq, Repr

/-- Observable effects of handleCancel: which task id was posted to the
cancel endpoint (none when no request is made), and the UI message shown
(the Bool is true for a success toast, false for an error toast). -/
structure CancelTrace where
  requested : Option String
  uiMessage : Option (Bool × String)
deriving DecidableEq, Repr

/-- Observable effects of handleGenerate: the create request body if one
was issued, the early-validation warning if any, the error toast if any,
and the recorded generatedResult if any. -/
structure GenTrace where
  request : Option Payload
  warned : Option String
  uiError : Option String
  result : Option GeneratedResult
deriving DecidableEq, Repr

/-- Lookup of the task-list entry for a given id (first match, as the
rendered list and findIndex both use first occurrence). -/
def findTask (l : List TaskItem) (id : String) : Option TaskItem :=
  l.find? (fun t => t.taskId == id)

namespace AppVue

/-- The JS object merge within upsertTask for a found index:
taskList.value[idx] = the spread of the old entry then the patch, so every
field present in the patch overrides the old entry. -/
def applyPatch (t : TaskItem) (p : Patch) : TaskItem :=
  { taskId := p.taskId,
    progress := p.progress.getD t.progress,
    stage := p.stage.getD t.stage,
    status := p.status.getD t.status }

/-- The object unshifted by upsertTask when no entry matches:
defaults 0, 任务创建中, PENDING applied by ?? in the source. -/
def newTaskOfPatch (p : Patch) : TaskItem :=
  { taskId := p.taskId,
    progress := p.progress.getD 0,
    stage := p.stage.getD "任务创建中",
    status := p.status.getD "PENDING" }

/-- Replace the first entry whose taskId matches the patch (the findIndex
plus indexed assignment of the source). -/
def patchFirst : List TaskItem → Patch → List TaskItem
  | [], _ => []
  | t :: rest, p =>
    if t.taskId == p.taskId then applyPatch t p :: rest
    else t :: patchFirst rest p

/-- upsertTask of App.vue: patch the entry found by findIndex in place, or
unshift a fresh entry to the front when findIndex returns -1. -/
def upsertTask (l : List TaskItem) (p : Patch) : List TaskItem :=
  if l.any (fun t => t.taskId == p.taskId) then patchFirst l p
  else newTaskOfPatch p :: l

/-- The status normalization of the poll loop:
(data?.status || '').toUpperCase(). -/
def statusOf (d : PollData) : String :=
  jsToUpper (d.status.getD "")

/-- True when the iteration neither returns nor throws: the uppercased
status is none of SUCCESS, FAILED, CANCELED (PENDING, RUNNING and any
unknown status all sleep and re-poll). -/
def continuesPoll (d : PollData) : Bool :=
  !(statusOf d == "SUCCESS") && !(statusOf d == "FAILED")
    && !(statusOf d == "CANCELED")

/-- One iteration of the for loop of pollGenerateTask on response d:
upsert the task entry, set the loading refs, then branch on the status.
Returns the state afterwards, and none to continue the loop or the
returned/thrown outcome. -/
def pollIter (taskId : String) (d : PollData) (s : PollState) :
    PollState × Option PollResult :=
  let status := statusOf d
  let progress := d.progress.getD 0
  let stage := d.stage.getD ""
  let s1 : PollState :=
    { s with
      taskList := upsertTask s.taskList
        { taskId := taskId, progress := some progress,
          stage := some stage, status := some status },
      loadingPercent := max 0 (min 100 progress),
      loadingStatusText := if stage = "" then "处理中..." else stage,
      polls := s.polls + 1 }
  if status = "PENDING" then
    ({ s1 with sleeps := s1.sleeps + 1 }, none)
  else if status = "RUNNING" then
    ({ s1 with sleeps := s1.sleeps + 1 }, none)
  else if status = "SUCCESS" then
    ({ s1 with
        loadingPercent := 100,
        loadingStatusText := "处理完成",
        taskList := upsertTask s1.taskList
          { taskId := taskId, progress := some 100,
            stage := some "处理完成", status := some status } },
      some (PollResult.ok d))
  else if status = "FAILED" then
    ({ s1 with
        taskList := upsertTask s1.taskList
          { taskId := taskId, progress := some 100,
            stage := some "处理失败", status := some status } },
      some (PollResult.err (jsOrS d.detail "任务执行失败")))
  else if status = "CANCELED" then
    ({ s1 with
        taskList := upsertTask s1.taskList
          { taskId := taskId, progress := some 100,
            stage := some "任务已取消", status := some status } },
      some (PollResult.err (jsOrS d.detail "任务已取消")))
  else
    ({ s1 with sleeps := s1.sleeps + 1 }, none)

/-- The fuel-indexed polling loop: the first Nat is the next attempt
index, the second the remaining attempts; exhausting the fuel throws the
client timeout Error of the line after the for loop. Encoded by primitive
recursion on the fuel so that reduction peels one iteration at a time (a
pattern-matching equation-compiled loop would force the kernel to build
the full course-of-values tower for the literal bound 600). -/
def pollAux (taskId : String) (responses : Nat → PollData)
    (i fuel : Nat) (s : PollState) : PollState × PollResult :=
  @Nat.rec (fun _ => Nat → PollState → PollState × PollResult)
    (fun _ s1 => (s1, PollResult.err "任务轮询超时，请稍后重试"))
    (fun _ ih j s1 =>
      match pollIter taskId (responses j) s1 with
      | (s2, none) => ih (j + 1) s2
      | (s2, some res) => (s2, res))
    fuel i s

/-- The constant maxPollTimes = 600 of App.vue. Marked irreducible so
that elaboration never unfolds the 600-deep recursion tower of pollAux at
a literal fuel; proofs rewrite it to 600 explicitly where needed. -/
@[irreducible] def maxPollTimes : Nat := 600

/-- pollGenerateTask of App.vue: at most maxPollTimes = 600 attempts. -/
def pollGenerateTask (taskId : String) (responses : Nat → PollData)
    (s : PollState) : PollState × PollResult :=
  pollAux taskId responses 0 maxPollTimes s

/-- handleCancel of App.vue: no-op when currentTaskId is falsy (the empty
string); otherwise posts the cancel request for that id, showing a success
toast on ok and the detail/message/fallback chain on error. Every error of
the request is caught, so the function always returns a trace. -/
def handleCancel (currentTaskId : String)
    (post : String → Except AxiosErr Unit) : CancelTrace :=
  if currentTaskId = "" then { requested := none, uiMessage := none }
  else
    match post currentTaskId with
    | Except.ok _ =>
      { requested := some currentTaskId,
        uiMessage := some (true, "已发送取消请求") }
    | Except.error e =>
      { requested := some currentTaskId,
        uiMessage := some (false, jsOrS e.detail (jsOrS e.message "取消失败")) }

/-- The generatedResult record built after a successful poll:
code ?? 200, processTime ?? client-measured duration, content ?? ''. -/
def mkGeneratedResult (d : PollData) (duration : Int) : GeneratedResult :=
  { code := d.code.getD 200,
    processTime := d.processTime.getD duration,
    content := d.content.getD "" }

/-- The tail of handleGenerate of App.vue after the awaited poll: on a
returned payload, record generatedResult; on a thrown Error, the catch
block shows the message (or the generic fallback for an empty message)
and sets the failure status text. -/
def handleGenerateAwait (payload : Payload) (duration : Int)
    (pr : PollState × PollResult) : PollState × GenTrace :=
  match pr with
  | (s3, PollResult.ok d) =>
    (s3, { request := some payload, warned := none,
           uiError := none,
           result := some (mkGeneratedResult d duration) })
  | (s3, PollResult.err m) =>
    ({ s3 with loadingStatusText := "请求失败" },
      { request := some payload, warned := none,
        uiError := some (jsOrS (some m) "请求出错"),
        result := none })

/-- handleGenerate of App.vue. Arguments: the form data, the timestamp
taken in the payload, the create request (returning the optional taskId of
the response or an axios error), the poll responses, the client-measured
duration used as the processTime fallback, and the client state. Returns
the final state and the observable trace. -/
def handleGenerate (p : ProjectData) (timestamp : Int)
    (create : Payload → Except AxiosErr (Option String))
    (responses : Nat → PollData) (duration : Int) (s : PollState) :
    PollState × GenTrace :=
  if p.url = "" then
    (s, { request := none, warned := some "请先输入视频链接",
          uiError := none, result := none })
  else if p.prompt = "" then
    (s, { request := none, warned := some "请先输入 prompt",
          uiError := none, result := none })
  else
    let s0 : PollState := { s with loadingPercent := 0,
                                   loadingStatusText := "任务创建中..." }
    let payload : Payload :=
      { video_url := p.url, params := p, timestamp := timestamp }
    match create payload with
    | Except.error e =>
      ({ s0 with loadingStatusText := "请求失败" },
        { request := some payload, warned := none,
          uiError := some (jsOrS e.detail (jsOrS e.message "请求出错")),
          result := none })
    | Except.ok tid? =>
      match tid? with
      | none =>
        ({ s0 with loadingStatusText := "请求失败" },
          { request := some payload, warned := none,
            uiError := some (jsOrS (some "后端未返回 taskId") "请求出错"),
            result := none })
      | some tid =>
        if tid = "" then
          ({ s0 with loadingStatusText := "请求失败" },
            { request := some payload, warned := none,
              uiError := some (jsOrS (some "后端未返回 taskId") "请求出错"),
              result := none })
        else
          let s2 : PollState :=
            { s0 with
              taskList := upsertTask s0.taskList
                { taskId := tid, progress := some 0,
                  stage := some "任务创建成功", status := some "PENDING" } }
          handleGenerateAwait payload duration (pollGenerateTask tid responses s2)

end AppVue

namespace Part000

/-- The object merge within upsertTask of src/unnamed/part_000 for a found
index: the spread of the old entry then the patch. -/
def applyPatch (t : TaskItem) (p : Patch) : TaskItem :=
  { taskId := p.taskId,
    progress := p.progress.getD t.progress,
    stage := p.stage.getD t.stage,
    status := p.status.getD t.status }

/-- The object unshifted by upsertTask of part_000 when no entry
matches. -/
def newTaskOfPatch (p : Patch) : TaskItem :=
  { taskId := p.taskId,
    progress := p.progress.getD 0,
    stage := p.stage.getD "任务创建中",
    status := p.status.getD "PENDING" }

/-- Replace the first entry whose taskId matches the patch. -/
def patchFirst : List TaskItem → Patch → List TaskItem
  | [], _ => []
  | t :: rest, p =>
    if t.taskId == p.taskId then applyPatch t p :: rest
    else t :: patchFirst rest p

/-- upsertTask of part_000. -/
def upsertTask (l : List TaskItem) (p : Patch) : List TaskItem :=
  if l.any (fun t => t.taskId == p.taskId) then patchFirst l p
  else newTaskOfPatch p :: l

/-- (data?.status || '').toUpperCase() of part_000. -/
def statusOf (d : PollData) : String :=
  jsToUpper (d.status.getD "")

/-- One iteration of the for loop of pollGenerateTask of part_000. -/
def pollIter (taskId : String) (d : PollData) (s : PollState) :
    PollState × Option PollResult :=
  let status := statusOf d
  let progress := d.progress.getD 0
  let stage := d.stage.getD ""
  let s1 : PollState :=
    { s with
      taskList := upsertTask s.taskList
        { taskId := taskId, progress := some progress,
          stage := some stage, status := some status },
      loadingPercent := max 0 (min 100 progress),
      loadingStatusText := if stage = "" then "处理中..." else stage,
      polls := s.polls + 1 }
  if status = "PENDING" then
    ({ s1 with sleeps := s1.sleeps + 1 }, none)
  else if status = "RUNNING" then
    ({ s1 with sleeps := s1.sleeps + 1 }, none)
  else if status = "SUCCESS" then
    ({ s1 with
        loadingPercent := 100,
        loadingStatusText := "处理完成",
        taskList := upsertTask s1.taskList
          { taskId := taskId, progress := some 100,
            stage := some "处理完成", status := some status } },
      some (PollResult.ok d))
  else if status = "FAILED" then
    ({ s1 with
        taskList := upsertTask s1.taskList
          { taskId := taskId, progress := some 100,
            stage := some "处理失败", status := some status } },
      some (PollResult.err (jsOrS d.detail "任务执行失败")))
  else if status = "CANCELED" then
    ({ s1 with
        taskList := upsertTask s1.taskList
          { taskId := taskId, progress := some 100,
            stage := some "任务已取消", status := some status } },
      some (PollResult.err (jsOrS d.detail "任务已取消")))
  else
    ({ s1 with sleeps := s1.sleeps + 1 }, none)

/-- The fuel-indexed polling loop of part_000, encoded by primitive
recursion on the fuel as in the App.vue embedding. -/
def pollAux (taskId : String) (responses : Nat → PollData)
    (i fuel : Nat) (s : PollState) : PollState × PollResult :=
  @Nat.rec (fun _ => Nat → PollState → PollState × PollResult)
    (fun _ s1 => (s1, PollResult.err "任务轮询超时，请稍后重试"))
    (fun _ ih j s1 =>
      match pollIter taskId (responses j) s1 with
      | (s2, none) => ih (j + 1) s2
      | (s2, some res) => (s2, res))
    fuel i s

/-- The constant maxPollTimes = 600 of part_000, irreducible as in the
App.vue embedding. -/
@[irreducible] def maxPollTimes : Nat := 600

/-- pollGenerateTask of part_000: maxPollTimes = 600. -/
def pollGenerateTask (taskId : String) (responses : Nat → PollData)
    (s : PollState) : PollState × PollResult :=
  pollAux taskId responses 0 maxPollTimes s

/-- handleCancel of part_000. -/
def handleCancel (currentTaskId : String)
    (post : String → Except AxiosErr Unit) : CancelTrace :=
  if currentTaskId = "" then { requested := none, uiMessage := none }
  else
    match post currentTaskId with
    | Except.ok _ =>
      { requested := some currentTaskId,
        uiMessage := some (true, "已发送取消请求") }
    | Except.error e =>
      { requested := some currentTaskId,
        uiMessage := some (false, jsOrS e.detail (jsOrS e.message "取消失败")) }

/-- The generatedResult record built by handleGenerate of part_000. -/
def mkGeneratedResult (d : PollData) (duration : Int) : GeneratedResult :=
  { code := d.code.getD 200,
    processTime := d.processTime.getD duration,
    content := d.content.getD "" }

/-- The tail of handleGenerate of part_000 after the awaited poll. -/
def handleGenerateAwait (payload : Payload) (duration : Int)
    (pr : PollState × PollResult) : PollState × GenTrace :=
  match pr with
  | (s3, PollResult.ok d) =>
    (s3, { request := some payload, warned := none,
           uiError := none,
           result := some (mkGeneratedResult d duration) })
  | (s3, PollResult.err m) =>
    ({ s3 with loadingStatusText := "请求失败" },
      { request := some payload, warned := none,
        uiError := some (jsOrS (some m) "请求出错"),
        result := none })

/-- handleGenerate of part_000, with the same explicit effect arguments as
the App.vue embedding. -/
def handleGenerate (p : ProjectData) (timestamp : Int)
    (create : Payload → Except AxiosErr (Option String))
    (responses : Nat → PollData) (duration : Int) (s : PollState) :
    PollState × GenTrace :=
  if p.url = "" then
    (s, { request := none, warned := some "请先输入视频链接",
          uiError := none, result := none })
  else if p.prompt = "" then
    (s, { request := none, warned := some "请先输入 prompt",
          uiError := none, result := none })
  else
    let s0 : PollState := { s with loadingPercent := 0,
                                   loadingStatusText := "任务创建中..." }
    let payload : Payload :=
      { video_url := p.url, params := p, timestamp := timestamp }
    match create payload with
    | Except.error e =>
      ({ s0 with loadingStatusText := "请求失败" },
        { request := some payload, warned := none,
          uiError := some (jsOrS e.detail (jsOrS e.message "请求出错")),
          result := none })
    | Except.ok tid? =>
      match tid? with
      | none =>
        ({ s0 with loadingStatusText := "请求失败" },
          { request := some payload, warned := none,
            uiError := some (jsOrS (some "后端未返回 taskId") "请求出错"),
            result := none })
      | some tid =>
        if tid = "" then
          ({ s0 with loadingStatusText := "请求失败" },
            { request := some payload, warned := none,
              uiError := some (jsOrS (some "后端未返回 taskId") "请求出错"),
              result := none })
        else
          let s2 : PollState :=
            { s0 with
              taskList := upsertTask s0.taskList
                { taskId := tid, progress := some 0,
                  stage := some "任务创建成功", status := some "PENDING" } }
          handleGenerateAwait payload duration (pollGenerateTask tid responses s2)

end Part000

/-!
Signed URL codec. The codec itself is backend code of this repository that
is not present under src/ (src/backend holds only TUNNEL_SETUP.md, which
documents the signed public-media endpoint and its HMAC secret), so the
definitions below are modelled from the spec, section 4.3 and section 3.
-/

/-- Modelled from the spec: an HMAC tag in the symbolic (ideal MAC) model.
The missing backend code computes HMAC(secret, fileId concatenated with
expires); the tag is modelled as the triple it authenticates, so that two
tags are equal exactly when key and authenticated message agree. -/
structure HmacTag where
  key : String
  fileId : String
  expires : Nat
deriving DecidableEq, Repr

/-- Modelled from the spec: the HMAC of the server secret over the
message fileId concatenated with expires (the concatenation is modelled as
the pair of its two fields). -/
def hmacSign (secret fileId : String) (expires : Nat) : HmacTag :=
  { key := secret, fileId := fileId, expires := expires }

/-- Modelled from the spec: a SignedURLToken, the derived value
consisting of fileId, expiry timestamp and signature. -/
structure SignedURLToken where
  fileId : String
  expires : Nat
  sign : HmacTag
deriving DecidableEq, Repr

/-- Modelled from the spec: mint(fileId, ttlSeconds) at current time now
produces the token whose expiry is now + ttl and whose signature is the
HMAC over fileId and that expiry. -/
def mint (secret fileId : String) (now ttl : Nat) : SignedURLToken :=
  { fileId := fileId,
    expires := now + ttl,
    sign := hmacSign secret fileId (now + ttl) }

/-- Modelled from the spec: verify(fileId, expires, sign) recomputes the
signature over fileId and expires with the server secret and checks both
the signature and expires > now. -/
def verify (secret fileId : String) (expires : Nat) (sign : HmacTag)
    (now : Nat) : Bool :=
  (sign == hmacSign secret fileId expires) && decide (expires > now)

/-!
Helper lemmas about the App.vue embedding. The two component versions are
proved extensionally equal below, so the claim theorems are stated against
the AppVue definitions.
-/

theorem maxPollTimes_val : AppVue.maxPollTimes = 600 := by
  rw [AppVue.maxPollTimes]

theorem maxPollTimes_val_p0 : Part000.maxPollTimes = 600 := by
  rw [Part000.maxPollTimes]

theorem pollGenerateTask_def (t : String) (r : Nat → PollData) (s : PollState) :
    AppVue.pollGenerateTask t r s = AppVue.pollAux t r 0 600 s := by
  rw [AppVue.pollGenerateTask, maxPollTimes_val]

theorem pollAux_zero (t : String) (r : Nat → PollData) (i : Nat)
    (s : PollState) :
    AppVue.pollAux t r i 0 s = (s, PollResult.err "任务轮询超时，请稍后重试") := rfl

theorem pollAux_succ (t : String) (r : Nat → PollData) (i fuel : Nat)
    (s : PollState) :
    AppVue.pollAux t r i (fuel + 1) s
      = match AppVue.pollIter t (r i) s with
        | (s1, none) => AppVue.pollAux t r (i + 1) fuel s1
        | (s1, some res) => (s1, res) := rfl

theorem p0_pollAux_zero (t : String) (r : Nat → PollData) (i : Nat)
    (s : PollState) :
    Part000.pollAux t r i 0 s = (s, PollResult.err "任务轮询超时，请稍后重试") := rfl

theorem p0_pollAux_succ (t : String) (r : Nat → PollData) (i fuel : Nat)
    (s : PollState) :
    Part000.pollAux t r i (fuel + 1) s
      = match Part000.pollIter t (r i) s with
        | (s1, none) => Part000.pollAux t r (i + 1) fuel s1
        | (s1, some res) => (s1, res) := rfl

theorem pollIter_polls (t : String) (d : PollData) (s : PollState) :
    (AppVue.pollIter t d s).1.polls = s.polls + 1 := by
  simp only [AppVue.pollIter]
  split_ifs <;> rfl

theorem pollIter_continue (t : String) (d : PollData) (s : PollState)
    (h : AppVue.continuesPoll d = true) :
    (AppVue.pollIter t d s).2 = none ∧
    (AppVue.pollIter t d s).1.sleeps = s.sleeps + 1 := by
  simp only [AppVue.continuesPoll, Bool.and_eq_true, Bool.not_eq_true',
    beq_eq_false_iff_ne] at h
  obtain ⟨⟨h1, h2⟩, h3⟩ := h
  simp only [AppVue.pollIter]
  split_ifs with c1 c2 c3 c4 c5 <;> simp_all

theorem pendrun_continues (d : PollData)
    (h : AppVue.statusOf d = "PENDING" ∨ AppVue.statusOf d = "RUNNING") :
    AppVue.continuesPoll d = true := by
  rcases h with h | h <;> simp [AppVue.continuesPoll, h]

theorem pollAux_step_continue (t : String) (r : Nat → PollData) (i fuel : Nat)
    (s : PollState) (h : (AppVue.pollIter t (r i) s).2 = none) :
    AppVue.pollAux t r i (fuel + 1) s
      = AppVue.pollAux t r (i + 1) fuel (AppVue.pollIter t (r i) s).1 := by
  have hp : AppVue.pollIter t (r i) s = ((AppVue.pollIter t (r i) s).1, none) := by
    rcases e : AppVue.pollIter t (r i) s with ⟨s1, o⟩
    rw [e] at h
    simp at h
    simp [h]
  rw [pollAux_succ, hp]

theorem pollAux_step_terminal (t : String) (r : Nat → PollData) (i fuel : Nat)
    (s : PollState) (res : PollResult)
    (h : (AppVue.pollIter t (r i) s).2 = some res) :
    AppVue.pollAux t r i (fuel + 1) s = ((AppVue.pollIter t (r i) s).1, res) := by
  have hp : AppVue.pollIter t (r i) s = ((AppVue.pollIter t (r i) s).1, some res) := by
    rcases e : AppVue.pollIter t (r i) s with ⟨s1, o⟩
    rw [e] at h
    simp at h
    simp [h]
  rw [pollAux_succ, hp]

theorem pollAux_polls_le (t : String) (r : Nat → PollData) :
    ∀ (fuel i : Nat) (s : PollState),
      (AppVue.pollAux t r i fuel s).1.polls ≤ s.polls + fuel := by
  intro fuel
  induction fuel with
  | zero => intro i s; simp [pollAux_zero]
  | succ n ih =>
    intro i s
    rcases e : (AppVue.pollIter t (r i) s).2 with _ | res
    · rw [pollAux_step_continue t r i n s e]
      have := ih (i + 1) (AppVue.pollIter t (r i) s).1
      have hpl := pollIter_polls t (r i) s
      omega
    · rw [pollAux_step_terminal t r i n s res e]
      have hpl := pollIter_polls t (r i) s
      simp only []
      omega

theorem pollAux_timeout (t : String) (r : Nat → PollData)
    (h : ∀ i, AppVue.statusOf (r i) = "PENDING" ∨ AppVue.statusOf (r i) = "RUNNING") :
    ∀ (fuel i : Nat) (s : PollState),
      (AppVue.pollAux t r i fuel s).2 = PollResult.err "任务轮询超时，请稍后重试" ∧
      (AppVue.pollAux t r i fuel s).1.polls = s.polls + fuel ∧
      (AppVue.pollAux t r i fuel s).1.sleeps = s.sleeps + fuel := by
  intro fuel
  induction fuel with
  | zero => intro i s; simp [pollAux_zero]
  | succ n ih =>
    intro i s
    have hc := pollIter_continue t (r i) s (pendrun_continues (r i) (h i))
    rw [pollAux_step_continue t r i n s hc.1]
    have hih := ih (i + 1) (AppVue.pollIter t (r i) s).1
    have hpl := pollIter_polls t (r i) s
    refine ⟨hih.1, ?_, ?_⟩ <;> omega

theorem pollAux_shift (t : String) (r : Nat → PollData) :
    ∀ (k i fuel : Nat) (s : PollState),
      (∀ j, j < k → AppVue.continuesPoll (r (i + j)) = true) → k ≤ fuel →
      ∃ s1, AppVue.pollAux t r i fuel s = AppVue.pollAux t r (i + k) (fuel - k) s1 ∧
            s1.polls = s.polls + k := by
  intro k
  induction k with
  | zero => intro i fuel s _ _; exact ⟨s, by simp⟩
  | succ n ih =>
    intro i fuel s hc hk
    rcases fuel with _ | f
    · omega
    have h0 : AppVue.continuesPoll (r i) = true := by
      have := hc 0 (by omega)
      simpa using this
    have hstep := pollAux_step_continue t r i f s (pollIter_continue t (r i) s h0).1
    have hc1 : ∀ j, j < n → AppVue.continuesPoll (r (i + 1 + j)) = true := by
      intro j hj
      have := hc (j + 1) (by omega)
      have e : i + (j + 1) = i + 1 + j := by omega
      rwa [e] at this
    obtain ⟨s1, he, hp⟩ := ih (i + 1) f (AppVue.pollIter t (r i) s).1 hc1 (by omega)
    refine ⟨s1, ?_, ?_⟩
    · rw [hstep, he]
      have e1 : i + 1 + n = i + (n + 1) := by omega
      have e2 : f - n = f + 1 - (n + 1) := by omega
      rw [e1, e2]
    · have hpl := pollIter_polls t (r i) s
      omega

theorem patchFirst_find (id : String) (pr : Int) (st stt : String) :
    ∀ l : List TaskItem, l.any (fun t => t.taskId == id) = true →
      (AppVue.patchFirst l ⟨id, some pr, some st, some stt⟩).find?
          (fun t => t.taskId == id) = some ⟨id, pr, st, stt⟩ := by
  intro l
  induction l with
  | nil => simp
  | cons t rest ih =>
    intro h
    by_cases ht : (t.taskId == id) = true
    · simp [AppVue.patchFirst, ht, AppVue.applyPatch, List.find?]
    · simp only [AppVue.patchFirst, ht, if_false]
      simp only [List.any_cons, ht, Bool.false_or] at h
      simp only [List.find?, ht]
      exact ih h

theorem findTask_upsert (l : List TaskItem) (id : String) (pr : Int)
    (st stt : String) :
    findTask (AppVue.upsertTask l ⟨id, some pr, some st, some stt⟩) id
      = some ⟨id, pr, st, stt⟩ := by
  by_cases h : (l.any fun t => t.taskId == id) = true
  · rw [findTask, AppVue.upsertTask, if_pos h]
    exact patchFirst_find id pr st stt l h
  · rw [findTask, AppVue.upsertTask, if_neg h]
    simp [List.find?, AppVue.newTaskOfPatch]

theorem pollIter_success (t : String) (d : PollData) (s : PollState)
    (h : AppVue.statusOf d = "SUCCESS") :
    (AppVue.pollIter t d s).2 = some (PollResult.ok d) ∧
    (AppVue.pollIter t d s).1.loadingPercent = 100 ∧
    (AppVue.pollIter t d s).1.loadingStatusText = "处理完成" ∧
    (AppVue.pollIter t d s).1.polls = s.polls + 1 ∧
    findTask (AppVue.pollIter t d s).1.taskList t
      = some ⟨t, 100, "处理完成", "SUCCESS"⟩ := by
  simp [AppVue.pollIter, h, findTask_upsert _ t 100 "处理完成" "SUCCESS"]

theorem pollIter_failed (t : String) (d : PollData) (s : PollState)
    (h : AppVue.statusOf d = "FAILED") :
    (AppVue.pollIter t d s).2 = some (PollResult.err (jsOrS d.detail "任务执行失败")) ∧
    findTask (AppVue.pollIter t d s).1.taskList t
      = some ⟨t, 100, "处理失败", "FAILED"⟩ := by
  simp [AppVue.pollIter, h, findTask_upsert _ t 100 "处理失败" "FAILED"]

theorem pollIter_canceled (t : String) (d : PollData) (s : PollState)
    (h : AppVue.statusOf d = "CANCELED") :
    (AppVue.pollIter t d s).2 = some (PollResult.err (jsOrS d.detail "任务已取消")) ∧
    findTask (AppVue.pollIter t d s).1.taskList t
      = some ⟨t, 100, "任务已取消", "CANCELED"⟩ := by
  simp [AppVue.pollIter, h, findTask_upsert _ t 100 "任务已取消" "CANCELED"]

theorem pollIter_unknown (t : String) (d : PollData) (s : PollState)
    (h1 : AppVue.statusOf d ≠ "PENDING") (h2 : AppVue.statusOf d ≠ "RUNNING")
    (h3 : AppVue.statusOf d ≠ "SUCCESS") (h4 : AppVue.statusOf d ≠ "FAILED")
    (h5 : AppVue.statusOf d ≠ "CANCELED") :
    (AppVue.pollIter t d s).2 = none ∧
    (AppVue.pollIter t d s).1.polls = s.polls + 1 ∧
    (AppVue.pollIter t d s).1.sleeps = s.sleeps + 1 := by
  simp only [AppVue.pollIter]
  split_ifs <;> simp_all

theorem pollIter_clamp (t : String) (d : PollData) (s : PollState) :
    0 ≤ (AppVue.pollIter t d s).1.loadingPercent ∧
    (AppVue.pollIter t d s).1.loadingPercent ≤ 100 := by
  simp only [AppVue.pollIter]
  split_ifs <;>
    first
      | exact ⟨le_max_left 0 _, max_le (by norm_num) (min_le_left 100 _)⟩
      | exact ⟨(by norm_num : (0 : Int) ≤ 100), le_refl (100 : Int)⟩

theorem pollIter_raw_entry (t : String) (d : PollData) (s : PollState)
    (h : AppVue.continuesPoll d = true) :
    findTask (AppVue.pollIter t d s).1.taskList t
      = some ⟨t, d.progress.getD 0, d.stage.getD "", AppVue.statusOf d⟩ := by
  simp only [AppVue.continuesPoll, Bool.and_eq_true, Bool.not_eq_true',
    beq_eq_false_iff_ne] at h
  obtain ⟨⟨hS, hF⟩, hC⟩ := h
  simp only [AppVue.pollIter]
  split_ifs <;> exact findTask_upsert _ t _ _ _

theorem pollGT_success (t : String) (r : Nat → PollData) (s : PollState) (k : Nat)
    (hk : k < 600) (hc : ∀ j, j < k → AppVue.continuesPoll (r j) = true)
    (hs : AppVue.statusOf (r k) = "SUCCESS") :
    (AppVue.pollGenerateTask t r s).2 = PollResult.ok (r k) ∧
    (AppVue.pollGenerateTask t r s).1.loadingPercent = 100 ∧
    (AppVue.pollGenerateTask t r s).1.loadingStatusText = "处理完成" ∧
    (AppVue.pollGenerateTask t r s).1.polls = s.polls + (k + 1) ∧
    findTask (AppVue.pollGenerateTask t r s).1.taskList t
      = some ⟨t, 100, "处理完成", "SUCCESS"⟩ := by
  obtain ⟨s1, he, hp⟩ := pollAux_shift t r k 0 600 s (by simpa using hc) (by omega)
  simp only [Nat.zero_add] at he
  rcases e : 600 - k with _ | m
  · omega
  rw [e] at he
  have hsu := pollIter_success t (r k) s1 hs
  have hterm := pollAux_step_terminal t r k m s1 (PollResult.ok (r k)) hsu.1
  have hfull : AppVue.pollGenerateTask t r s
      = ((AppVue.pollIter t (r k) s1).1, PollResult.ok (r k)) := by
    rw [pollGenerateTask_def, he, hterm]
  rw [hfull]
  have hpl := pollIter_polls t (r k) s1
  exact ⟨rfl, hsu.2.1, hsu.2.2.1, by simp only []; omega, hsu.2.2.2.2⟩

theorem pollGT_failed (t : String) (r : Nat → PollData) (s : PollState) (k : Nat)
    (hk : k < 600) (hc : ∀ j, j < k → AppVue.continuesPoll (r j) = true)
    (hf : AppVue.statusOf (r k) = "FAILED") :
    (AppVue.pollGenerateTask t r s).2
      = PollResult.err (jsOrS (r k).detail "任务执行失败") ∧
    findTask (AppVue.pollGenerateTask t r s).1.taskList t
      = some ⟨t, 100, "处理失败", "FAILED"⟩ := by
  obtain ⟨s1, he, hp⟩ := pollAux_shift t r k 0 600 s (by simpa using hc) (by omega)
  simp only [Nat.zero_add] at he
  rcases e : 600 - k with _ | m
  · omega
  rw [e] at he
  have hfa := pollIter_failed t (r k) s1 hf
  have hterm := pollAux_step_terminal t r k m s1
    (PollResult.err (jsOrS (r k).detail "任务执行失败")) hfa.1
  have hfull : AppVue.pollGenerateTask t r s
      = ((AppVue.pollIter t (r k) s1).1,
         PollResult.err (jsOrS (r k).detail "任务执行失败")) := by
    rw [pollGenerateTask_def, he, hterm]
  rw [hfull]
  exact ⟨rfl, hfa.2⟩

theorem pollGT_canceled (t : String) (r : Nat → PollData) (s : PollState) (k : Nat)
    (hk : k < 600) (hc : ∀ j, j < k → AppVue.continuesPoll (r j) = true)
    (hca : AppVue.statusOf (r k) = "CANCELED") :
    (AppVue.pollGenerateTask t r s).2
      = PollResult.err (jsOrS (r k).detail "任务已取消") ∧
    findTask (AppVue.pollGenerateTask t r s).1.taskList t
      = some ⟨t, 100, "任务已取消", "CANCELED"⟩ := by
  obtain ⟨s1, he, hp⟩ := pollAux_shift t r k 0 600 s (by simpa using hc) (by omega)
  simp only [Nat.zero_add] at he
  rcases e : 600 - k with _ | m
  · omega
  rw [e] at he
  have hcn := pollIter_canceled t (r k) s1 hca
  have hterm := pollAux_step_terminal t r k m s1
    (PollResult.err (jsOrS (r k).detail "任务已取消")) hcn.1
  have hfull : AppVue.pollGenerateTask t r s
      = ((AppVue.pollIter t (r k) s1).1,
         PollResult.err (jsOrS (r k).detail "任务已取消")) := by
    rw [pollGenerateTask_def, he, hterm]
  rw [hfull]
  exact ⟨rfl, hcn.2⟩

theorem handleGen_success (p : ProjectData) (ts : Int)
    (create : Payload → Except AxiosErr (Option String)) (r : Nat → PollData)
    (dur : Int) (s : PollState) (tid : String) (k : Nat)
    (hu : ¬p.url = "") (hpr : ¬p.prompt = "")
    (hcr : create { video_url := p.url, params := p, timestamp := ts }
      = Except.ok (some tid))
    (htid : ¬tid = "")
    (hk : k < 600) (hc : ∀ j, j < k → AppVue.continuesPoll (r j) = true)
    (hs : AppVue.statusOf (r k) = "SUCCESS") :
    (AppVue.handleGenerate p ts create r dur s).2.result
      = some { code := (r k).code.getD 200, processTime := (r k).processTime.getD dur,
               content := (r k).content.getD "" } := by
  have h2 := pollGT_success tid r
    { taskList := AppVue.upsertTask s.taskList
        { taskId := tid, progress := some 0, stage := some "任务创建成功",
          status := some "PENDING" },
      loadingPercent := 0, loadingStatusText := "任务创建中...",
      polls := s.polls, sleeps := s.sleeps } k hk hc hs
  have hpair : AppVue.pollGenerateTask tid r
      { taskList := AppVue.upsertTask s.taskList
          { taskId := tid, progress := some 0, stage := some "任务创建成功",
            status := some "PENDING" },
        loadingPercent := 0, loadingStatusText := "任务创建中...",
        polls := s.polls, sleeps := s.sleeps }
      = ((AppVue.pollGenerateTask tid r
          { taskList := AppVue.upsertTask s.taskList
              { taskId := tid, progress := some 0, stage := some "任务创建成功",
                status := some "PENDING" },
            loadingPercent := 0, loadingStatusText := "任务创建中...",
            polls := s.polls, sleeps := s.sleeps }).1, PollResult.ok (r k)) :=
    congrArg (Prod.mk _) h2.1
  simp only [AppVue.handleGenerate, if_neg hu, if_neg hpr, hcr, if_neg htid]
  rw [hpair]
  rfl

theorem patchFirst_map (p : Patch) :
    ∀ l : List TaskItem,
      (AppVue.patchFirst l p).map TaskItem.taskId = l.map TaskItem.taskId := by
  intro l
  induction l with
  | nil => rfl
  | cons t rest ih =>
    by_cases ht : (t.taskId == p.taskId) = true
    · simp [AppVue.patchFirst, ht, AppVue.applyPatch]
      exact (beq_iff_eq.mp ht).symm
    · simp [AppVue.patchFirst, ht, ih]

theorem upsert_nodup (l : List TaskItem) (p : Patch)
    (h : (l.map TaskItem.taskId).Nodup) :
    ((AppVue.upsertTask l p).map TaskItem.taskId).Nodup := by
  by_cases ha : (l.any fun t => t.taskId == p.taskId) = true
  · rw [AppVue.upsertTask, if_pos ha, patchFirst_map]
    exact h
  · rw [AppVue.upsertTask, if_neg ha]
    simp only [List.map_cons, List.nodup_cons]
    refine ⟨?_, h⟩
    intro hm
    obtain ⟨u, hu, he⟩ := List.mem_map.mp hm
    have := List.any_eq_false.mp (Bool.not_eq_true _ ▸ ha) u hu
    simp [AppVue.newTaskOfPatch] at he
    simp [he] at this

theorem patchFirst_append (p : Patch) :
    ∀ (l1 : List TaskItem) (u : TaskItem) (l2 : List TaskItem),
      (∀ v ∈ l1, v.taskId ≠ p.taskId) → u.taskId = p.taskId →
      AppVue.patchFirst (l1 ++ u :: l2) p = l1 ++ AppVue.applyPatch u p :: l2 := by
  intro l1
  induction l1 with
  | nil =>
    intro u l2 _ hu
    simp [AppVue.patchFirst, hu]
  | cons v l1x ih =>
    intro u l2 hv hu
    have hvne : (v.taskId == p.taskId) = false := by
      simp [hv v (List.mem_cons_self v l1x)]
    simp [AppVue.patchFirst, hvne,
      ih u l2 (fun w hw => hv w (List.mem_cons_of_mem v hw)) hu]

theorem upsert_in_place (p : Patch) (l1 : List TaskItem) (u : TaskItem)
    (l2 : List TaskItem) (hv : ∀ v ∈ l1, v.taskId ≠ p.taskId)
    (hu : u.taskId = p.taskId) :
    AppVue.upsertTask (l1 ++ u :: l2) p = l1 ++ AppVue.applyPatch u p :: l2 := by
  have ha : ((l1 ++ u :: l2).any fun t => t.taskId == p.taskId) = true := by
    simp only [List.any_append, List.any_cons, hu, beq_self_eq_true, Bool.true_or,
      Bool.or_true]
  rw [AppVue.upsertTask, if_pos ha]
  exact patchFirst_append p l1 u l2 hv hu

theorem applyPatch_eq : Part000.applyPatch = AppVue.applyPatch := rfl

theorem newTaskOfPatch_eq : Part000.newTaskOfPatch = AppVue.newTaskOfPatch := rfl

theorem mkGeneratedResult_eq :
    Part000.mkGeneratedResult = AppVue.mkGeneratedResult := rfl

theorem statusOf_eq : Part000.statusOf = AppVue.statusOf := rfl

theorem patchFirst_eq : Part000.patchFirst = AppVue.patchFirst := by
  funext l p
  induction l with
  | nil => rfl
  | cons t rest ih =>
    simp only [Part000.patchFirst, AppVue.patchFirst, ih, applyPatch_eq]

theorem upsertTask_eq : Part000.upsertTask = AppVue.upsertTask := by
  funext l p
  simp only [Part000.upsertTask, AppVue.upsertTask, patchFirst_eq, newTaskOfPatch_eq]

theorem pollIter_eq : Part000.pollIter = AppVue.pollIter := by
  funext t d s
  simp only [Part000.pollIter, AppVue.pollIter, upsertTask_eq, statusOf_eq]

theorem pollAux_eq : Part000.pollAux = AppVue.pollAux := by
  funext t r i fuel s
  induction fuel generalizing i s with
  | zero => rw [p0_pollAux_zero, pollAux_zero]
  | succ n ih =>
    rw [p0_pollAux_succ, pollAux_succ, pollIter_eq]
    cases h : AppVue.pollIter t (r i) s with
    | mk s1 o =>
      cases o with
      | none => simp [ih]
      | some r0 => simp

theorem pollGenerateTask_eq :
    Part000.pollGenerateTask = AppVue.pollGenerateTask := by
  funext t r s
  simp only [Part000.pollGenerateTask, AppVue.pollGenerateTask, pollAux_eq,
    maxPollTimes_val, maxPollTimes_val_p0]

theorem handleCancel_eq : Part000.handleCancel = AppVue.handleCancel := rfl

theorem handleGenerateAwait_eq :
    Part000.handleGenerateAwait = AppVue.handleGenerateAwait := by
  funext payload dur pr
  rcases pr with ⟨s3, res⟩
  cases res <;> rfl

theorem handleGenerate_eq : Part000.handleGenerate = AppVue.handleGenerate := by
  funext p ts create r dur s
  simp only [Part000.handleGenerate, AppVue.handleGenerate, upsertTask_eq,
    pollGenerateTask_eq, handleGenerateAwait_eq]

/-!
Claim theorems.
-/

/-- Claim C1: for every task id and every sequence of poll responses whose
status stays PENDING or RUNNING, pollGenerateTask performs exactly its
maximum of 600 poll attempts, each followed by a sleep(2000) call (600
sleeps of 2 seconds, about 20 minutes of waiting), and then throws the
fixed client-side timeout message 任务轮询超时，请稍后重试, which is a
constant of the client and not any server-reported failure detail; and for
every response sequence whatsoever the number of poll attempts is bounded
by 600, so the loop never polls indefinitely. -/
theorem pollGenerateTask_bounded_timeout (t : String) (r : Nat → PollData)
    (s : PollState)
    (h : ∀ i, AppVue.statusOf (r i) = "PENDING" ∨
              AppVue.statusOf (r i) = "RUNNING") :
    (AppVue.pollGenerateTask t r s).2 = PollResult.err "任务轮询超时，请稍后重试" ∧
    (AppVue.pollGenerateTask t r s).1.polls = s.polls + 600 ∧
    (AppVue.pollGenerateTask t r s).1.sleeps = s.sleeps + 600 ∧
    ∀ (r2 : Nat → PollData) (s2 : PollState),
      (AppVue.pollGenerateTask t r2 s2).1.polls ≤ s2.polls + 600 := by
  simp only [pollGenerateTask_def]
  have ht := pollAux_timeout t r h 600 0 s
  exact ⟨ht.1, ht.2.1, ht.2.2, fun r2 s2 => pollAux_polls_le t r2 600 0 s2⟩

/-- Witness for C1: a concrete always-RUNNING response sequence times out
with the client message. -/
theorem pollGenerateTask_bounded_timeout_witness :
    (AppVue.pollGenerateTask "t1"
        (fun _ => { status := some "RUNNING", progress := some 50,
                    stage := some "转码中", detail := none, content := none,
                    processTime := none, code := none })
        initState).2 = PollResult.err "任务轮询超时，请稍后重试" :=
  (pollGenerateTask_bounded_timeout "t1"
    (fun _ => { status := some "RUNNING", progress := some 50,
                stage := some "转码中", detail := none, content := none,
                processTime := none, code := none })
    initState (fun _ => Or.inr rfl)).1

/-- Counterexample for C2 at the boundary instant: with mintTime = 0 and
ttl = 10, checking at now = 10 satisfies now ≤ mintTime + ttl, yet verify
returns false, because verify requires expires > now and the minted expiry
is exactly 10. So the claim that verification succeeds while
now ≤ mintTime + ttl fails at a concrete input. -/
theorem signedURL_boundary_counterexample :
    (10 ≤ 0 + 10) ∧
    verify "secret" "file" (mint "secret" "file" 0 10).expires
      (mint "secret" "file" 0 10).sign 10 = false :=
  ⟨by decide, by decide⟩

/-- Claim C2 (amended): for every fileId and ttl, verify accepts the
minted token while now < mintTime + ttl, rejects once now ≥ mintTime + ttl
(the expiry check of verify is strict: expires > now), and rejects any
mutated signature and any mutated expiry field, since verify recomputes
the HMAC over fileId and expires with the server secret and requires both
the signature match and expires > now. -/
theorem signedURL_roundtrip_amended (secret fileId : String)
    (mintTime ttl now : Nat) :
    (now < mintTime + ttl →
      verify secret fileId (mint secret fileId mintTime ttl).expires
        (mint secret fileId mintTime ttl).sign now = true) ∧
    (mintTime + ttl ≤ now →
      verify secret fileId (mint secret fileId mintTime ttl).expires
        (mint secret fileId mintTime ttl).sign now = false) ∧
    (∀ sg : HmacTag, sg ≠ (mint secret fileId mintTime ttl).sign →
      verify secret fileId (mint secret fileId mintTime ttl).expires
        sg now = false) ∧
    (∀ e : Nat, e ≠ (mint secret fileId mintTime ttl).expires →
      verify secret fileId e (mint secret fileId mintTime ttl).sign
        now = false) := by
  refine ⟨?_, ?_, ?_, ?_⟩
  · intro h
    simp [verify, mint, hmacSign, h]
  · intro h
    have hd : decide ((mint secret fileId mintTime ttl).expires > now) = false := by
      simp [mint]
      omega
    simp [verify, hd]
  · intro sg hsg
    have hb : (sg == hmacSign secret fileId (mintTime + ttl)) = false :=
      beq_eq_false_iff_ne.mpr (by simpa [mint] using hsg)
    simp only [verify, mint, hb, Bool.false_and]
  · intro e he
    have hb : ((mint secret fileId mintTime ttl).sign
        == hmacSign secret fileId e) = false := by
      refine beq_eq_false_iff_ne.mpr ?_
      intro hcontra
      apply he
      have := congrArg HmacTag.expires hcontra
      simpa [hmacSign, mint] using this.symm
    simp only [verify, hb, Bool.false_and]

/-- Witness for C2 at secret s, fileId f, mintTime 0, ttl 10: verification
succeeds at now = 3, fails at now = 12, fails for a wrong-key signature,
and fails for a shifted expiry. -/
theorem signedURL_roundtrip_amended_witness :
    verify "s" "f" (mint "s" "f" 0 10).expires (mint "s" "f" 0 10).sign 3
      = true ∧
    verify "s" "f" (mint "s" "f" 0 10).expires (mint "s" "f" 0 10).sign 12
      = false ∧
    verify "s" "f" (mint "s" "f" 0 10).expires (hmacSign "x" "f" 10) 3
      = false ∧
    verify "s" "f" 11 (mint "s" "f" 0 10).sign 3 = false :=
  ⟨(signedURL_roundtrip_amended "s" "f" 0 10 3).1 (by decide),
   (signedURL_roundtrip_amended "s" "f" 0 10 12).2.1 (by decide),
   (signedURL_roundtrip_amended "s" "f" 0 10 3).2.2.1
     (hmacSign "x" "f" 10) (by decide),
   (signedURL_roundtrip_amended "s" "f" 0 10 3).2.2.2 11 (by decide)⟩

/-- Claim C3: when the url or the prompt of projectData is the empty
string, handleGenerate issues no create request, shows a warning, and
leaves the client state untouched. -/
theorem handleGenerate_requires_inputs (p : ProjectData) (ts : Int)
    (create : Payload → Except AxiosErr (Option String)) (r : Nat → PollData)
    (dur : Int) (s : PollState) (h : p.url = "" ∨ p.prompt = "") :
    (AppVue.handleGenerate p ts create r dur s).2.request = none ∧
    (AppVue.handleGenerate p ts create r dur s).2.warned.isSome = true ∧
    (AppVue.handleGenerate p ts create r dur s).1 = s := by
  rcases h with h | h
  · simp [AppVue.handleGenerate, h]
  · by_cases hu : p.url = "" <;> simp [AppVue.handleGenerate, h, hu]

/-- Witness for C3: a form with an empty url sends no request. -/
theorem handleGenerate_requires_inputs_witness :
    (AppVue.handleGenerate
        { url := "", prompt := "summarize", title := "", type := "summary",
          engine := "local", timeRange := [0, 120], enableOCR := false,
          enhanceAudio := true }
        0 (fun _ => Except.ok none)
        (fun _ => { status := none, progress := none, stage := none,
                    detail := none, content := none, processTime := none,
                    code := none })
        0 initState).2.request = none :=
  (handleGenerate_requires_inputs
    { url := "", prompt := "summarize", title := "", type := "summary",
      engine := "local", timeRange := [0, 120], enableOCR := false,
      enhanceAudio := true }
    0 (fun _ => Except.ok none)
    (fun _ => { status := none, progress := none, stage := none,
                detail := none, content := none, processTime := none,
                code := none })
    0 initState (Or.inl rfl)).1

/-- Counterexample for C4: on a PENDING response reporting progress 150,
the task-list entry recorded by the poll loop holds 150, outside [0, 100];
only the loading indicator is clamped. -/
theorem taskList_progress_counterexample :
    findTask (AppVue.pollIter "t"
        { status := some "PENDING", progress := some 150, stage := none,
          detail := none, content := none, processTime := none, code := none }
        initState).1.taskList "t"
      = some { taskId := "t", progress := 150, stage := "", status := "PENDING" } ∧
    ¬((150 : Int) ≤ 100) :=
  ⟨by decide, by decide⟩

/-- Claim C4 (amended): for every poll response the loading indicator is
clamped into [0, 100]; the task-list entry updated on a PENDING, RUNNING
or unknown status stores the reported progress unclamped (it is forced to
100 only on terminal statuses). -/
theorem progress_clamp_amended (t : String) (d : PollData) (s : PollState) :
    (0 ≤ (AppVue.pollIter t d s).1.loadingPercent ∧
     (AppVue.pollIter t d s).1.loadingPercent ≤ 100) ∧
    (AppVue.continuesPoll d = true →
      findTask (AppVue.pollIter t d s).1.taskList t
        = some ⟨t, d.progress.getD 0, d.stage.getD "", AppVue.statusOf d⟩) :=
  ⟨pollIter_clamp t d s, fun h => pollIter_raw_entry t d s h⟩

/-- Witness for C4 on a RUNNING response with progress 150: the indicator
is clamped while the task entry keeps 150. -/
theorem progress_clamp_amended_witness :
    (0 ≤ (AppVue.pollIter "t"
        { status := some "RUNNING", progress := some 150, stage := none,
          detail := none, content := none, processTime := none, code := none }
        initState).1.loadingPercent ∧
     (AppVue.pollIter "t"
        { status := some "RUNNING", progress := some 150, stage := none,
          detail := none, content := none, processTime := none, code := none }
        initState).1.loadingPercent ≤ 100) ∧
    findTask (AppVue.pollIter "t"
        { status := some "RUNNING", progress := some 150, stage := none,
          detail := none, content := none, processTime := none, code := none }
        initState).1.taskList "t"
      = some { taskId := "t", progress := 150, stage := "", status := "RUNNING" } :=
  ⟨(progress_clamp_amended "t"
      { status := some "RUNNING", progress := some 150, stage := none,
        detail := none, content := none, processTime := none, code := none }
      initState).1,
   (progress_clamp_amended "t"
      { status := some "RUNNING", progress := some 150, stage := none,
        detail := none, content := none, processTime := none, code := none }
      initState).2 (by decide)⟩

/-- Claim C5: if the first k responses keep the loop going and response k
is the first with status SUCCESS, then pollGenerateTask stops after
exactly k + 1 polls, forces the displayed progress to 100 (both the
loading indicator and the task-list entry), and returns that response
payload; handleGenerate then records a result whose content is the
payload content (empty string if absent) and whose processTime is the
payload processTime, falling back to the client-measured duration. -/
theorem poll_success_records_result (t : String) (r : Nat → PollData)
    (s : PollState) (k : Nat) (p : ProjectData) (ts dur : Int)
    (create : Payload → Except AxiosErr (Option String)) (tid : String)
    (hk : k < 600) (hc : ∀ j, j < k → AppVue.continuesPoll (r j) = true)
    (hs : AppVue.statusOf (r k) = "SUCCESS")
    (hu : ¬p.url = "") (hpr : ¬p.prompt = "")
    (hcr : create { video_url := p.url, params := p, timestamp := ts }
      = Except.ok (some tid))
    (htid : ¬tid = "") :
    (AppVue.pollGenerateTask t r s).2 = PollResult.ok (r k) ∧
    (AppVue.pollGenerateTask t r s).1.loadingPercent = 100 ∧
    (AppVue.pollGenerateTask t r s).1.polls = s.polls + (k + 1) ∧
    findTask (AppVue.pollGenerateTask t r s).1.taskList t
      = some ⟨t, 100, "处理完成", "SUCCESS"⟩ ∧
    (AppVue.handleGenerate p ts create r dur s).2.result
      = some { code := (r k).code.getD 200,
               processTime := (r k).processTime.getD dur,
               content := (r k).content.getD "" } := by
  have h1 := pollGT_success t r s k hk hc hs
  exact ⟨h1.1, h1.2.1, h1.2.2.2.1, h1.2.2.2.2,
    handleGen_success p ts create r dur s tid k hu hpr hcr htid hk hc hs⟩

/-- Witness for C5: a concrete run whose first response already reports
SUCCESS returns the payload and records its content and processTime. -/
theorem poll_success_records_result_witness :
    (AppVue.pollGenerateTask "t5"
        (fun _ => { status := some "SUCCESS", progress := some 90,
                    stage := some "done", detail := none,
                    content := some "hello", processTime := some 4,
                    code := none })
        initState).2
      = PollResult.ok { status := some "SUCCESS", progress := some 90,
                        stage := some "done", detail := none,
                        content := some "hello", processTime := some 4,
                        code := none } ∧
    (AppVue.handleGenerate
        { url := "http://v", prompt := "sum", title := "", type := "summary",
          engine := "local", timeRange := [0, 120], enableOCR := false,
          enhanceAudio := true }
        1 (fun _ => Except.ok (some "t5"))
        (fun _ => { status := some "SUCCESS", progress := some 90,
                    stage := some "done", detail := none,
                    content := some "hello", processTime := some 4,
                    code := none })
        9 initState).2.result
      = some { code := 200, processTime := 4, content := "hello" } := by
  have h := poll_success_records_result "t5"
    (fun _ => { status := some "SUCCESS", progress := some 90,
                stage := some "done", detail := none,
                content := some "hello", processTime := some 4,
                code := none })
    initState 0
    { url := "http://v", prompt := "sum", title := "", type := "summary",
      engine := "local", timeRange := [0, 120], enableOCR := false,
      enhanceAudio := true }
    1 9 (fun _ => Except.ok (some "t5")) "t5"
    (by omega) (fun j hj => absurd hj (by omega)) rfl
    (by decide) (by decide) rfl (by decide)
  exact ⟨h.1, h.2.2.2.2⟩

/-- Claim C6: if the first k responses keep the loop going and response k
has terminal status FAILED or CANCELED, pollGenerateTask throws an error
carrying the server detail when that is a non-empty string (the generic
fallback otherwise) and never returns a payload; the CANCELED case runs a
branch distinct from FAILED, labelling the task entry 任务已取消 rather
than the failure label 处理失败. -/
theorem poll_terminal_failure_throws (t : String) (r : Nat → PollData)
    (s : PollState) (k : Nat) (hk : k < 600)
    (hc : ∀ j, j < k → AppVue.continuesPoll (r j) = true) :
    (AppVue.statusOf (r k) = "FAILED" →
      (AppVue.pollGenerateTask t r s).2
        = PollResult.err (jsOrS (r k).detail "任务执行失败") ∧
      (∀ d, (AppVue.pollGenerateTask t r s).2 ≠ PollResult.ok d) ∧
      findTask (AppVue.pollGenerateTask t r s).1.taskList t
        = some ⟨t, 100, "处理失败", "FAILED"⟩) ∧
    (AppVue.statusOf (r k) = "CANCELED" →
      (AppVue.pollGenerateTask t r s).2
        = PollResult.err (jsOrS (r k).detail "任务已取消") ∧
      (∀ d, (AppVue.pollGenerateTask t r s).2 ≠ PollResult.ok d) ∧
      findTask (AppVue.pollGenerateTask t r s).1.taskList t
        = some ⟨t, 100, "任务已取消", "CANCELED"⟩) := by
  constructor
  · intro hf
    have h := pollGT_failed t r s k hk hc hf
    exact ⟨h.1, fun d hd => by rw [h.1] at hd; exact PollResult.noConfusion hd, h.2⟩
  · intro hca
    have h := pollGT_canceled t r s k hk hc hca
    exact ⟨h.1, fun d hd => by rw [h.1] at hd; exact PollResult.noConfusion hd, h.2⟩

/-- Witness for C6: a first response FAILED with detail boom throws boom;
a first response CANCELED without detail throws the cancellation fallback
and labels the entry with the cancellation label. -/
theorem poll_terminal_failure_throws_witness :
    (AppVue.pollGenerateTask "t6"
        (fun _ => { status := some "FAILED", progress := some 80,
                    stage := none, detail := some "boom", content := none,
                    processTime := none, code := none })
        initState).2 = PollResult.err "boom" ∧
    (AppVue.pollGenerateTask "t6"
        (fun _ => { status := some "CANCELED", progress := some 10,
                    stage := none, detail := none, content := none,
                    processTime := none, code := none })
        initState).2 = PollResult.err "任务已取消" ∧
    findTask (AppVue.pollGenerateTask "t6"
        (fun _ => { status := some "CANCELED", progress := some 10,
                    stage := none, detail := none, content := none,
                    processTime := none, code := none })
        initState).1.taskList "t6"
      = some { taskId := "t6", progress := 100, stage := "任务已取消",
               status := "CANCELED" } := by
  have hf := (poll_terminal_failure_throws "t6"
    (fun _ => { status := some "FAILED", progress := some 80,
                stage := none, detail := some "boom", content := none,
                processTime := none, code := none })
    initState 0 (by omega) (fun j hj => absurd hj (by omega))).1 rfl
  have hcn := (poll_terminal_failure_throws "t6"
    (fun _ => { status := some "CANCELED", progress := some 10,
                stage := none, detail := none, content := none,
                processTime := none, code := none })
    initState 0 (by omega) (fun j hj => absurd hj (by omega))).2 rfl
  exact ⟨hf.1, hcn.1, hcn.2.2⟩

/-- Claim C7: handleCancel is a total function and never raises: with an
empty current task id it performs no request and shows no message;
otherwise it posts the cancel request for that id, shows a success toast
when the request succeeds, and turns any request error into an error
toast built from detail, then message, then the generic fallback. -/
theorem handleCancel_total (c : String)
    (post : String → Except AxiosErr Unit) :
    (c = "" →
      AppVue.handleCancel c post = { requested := none, uiMessage := none }) ∧
    (¬c = "" →
      (AppVue.handleCancel c post).requested = some c ∧
      (post c = Except.ok () →
        (AppVue.handleCancel c post).uiMessage = some (true, "已发送取消请求")) ∧
      (∀ e, post c = Except.error e →
        (AppVue.handleCancel c post).uiMessage
          = some (false, jsOrS e.detail (jsOrS e.message "取消失败")))) := by
  refine ⟨fun h => by simp [AppVue.handleCancel, h], fun h => ⟨?_, ?_, ?_⟩⟩
  · simp only [AppVue.handleCancel, if_neg h]
    cases hp : post c <;> rfl
  · intro hok
    simp only [AppVue.handleCancel, if_neg h, hok]
  · intro e he
    simp only [AppVue.handleCancel, if_neg h, he]

/-- Witness for C7: the empty id makes no request; a posted cancel for T
shows the success toast on ok and the error detail chain on error. -/
theorem handleCancel_total_witness :
    AppVue.handleCancel "" (fun _ => Except.ok ())
      = { requested := none, uiMessage := none } ∧
    (AppVue.handleCancel "T" (fun _ => Except.ok ())).uiMessage
      = some (true, "已发送取消请求") ∧
    (AppVue.handleCancel "T"
        (fun _ => Except.error { detail := none, message := some "boom" })).uiMessage
      = some (false, "boom") := by
  refine ⟨(handleCancel_total "" (fun _ => Except.ok ())).1 rfl,
    ((handleCancel_total "T" (fun _ => Except.ok ())).2 (by decide)).2.1 rfl, ?_⟩
  have h := ((handleCancel_total "T"
      (fun _ => Except.error { detail := none, message := some "boom" })).2
      (by decide)).2.2 { detail := none, message := some "boom" } rfl
  simpa [jsOrS] using h

/-- Claim C8: the component version in src/unnamed/part_000 and the one in
App.vue implement extensionally equal orchestration logic: upsertTask,
pollGenerateTask, handleCancel and the request/polling/result behavior of
handleGenerate agree on every input, every response sequence and every
state; the two files differ only in presentation. -/
theorem component_versions_equivalent :
    Part000.upsertTask = AppVue.upsertTask ∧
    Part000.pollGenerateTask = AppVue.pollGenerateTask ∧
    Part000.handleCancel = AppVue.handleCancel ∧
    Part000.handleGenerate = AppVue.handleGenerate :=
  ⟨upsertTask_eq, pollGenerateTask_eq, handleCancel_eq, handleGenerate_eq⟩

/-- Claim C9: status handling is case-insensitive and total over unknown
values: statusOf uppercases the status field before any comparison, and on
a response whose uppercased status is none of PENDING, RUNNING, SUCCESS,
FAILED, CANCELED (a missing status uppercases to the empty string and is
such a value), the iteration neither returns nor throws: it records one
more poll, one more sleep(2000), and the loop proceeds to the next attempt
with one unit of the 600-attempt budget consumed. -/
theorem poll_unknown_status_continues (t : String) (d : PollData)
    (s : PollState)
    (h1 : AppVue.statusOf d ≠ "PENDING") (h2 : AppVue.statusOf d ≠ "RUNNING")
    (h3 : AppVue.statusOf d ≠ "SUCCESS") (h4 : AppVue.statusOf d ≠ "FAILED")
    (h5 : AppVue.statusOf d ≠ "CANCELED") :
    (AppVue.pollIter t d s).2 = none ∧
    (AppVue.pollIter t d s).1.polls = s.polls + 1 ∧
    (AppVue.pollIter t d s).1.sleeps = s.sleeps + 1 ∧
    (∀ (r : Nat → PollData) (i fuel : Nat), r i = d →
      AppVue.pollAux t r i (fuel + 1) s
        = AppVue.pollAux t r (i + 1) fuel (AppVue.pollIter t d s).1) ∧
    (∀ st pr sg dt ct pt cd,
      AppVue.statusOf ⟨some st, pr, sg, dt, ct, pt, cd⟩ = jsToUpper st) := by
  have hu := pollIter_unknown t d s h1 h2 h3 h4 h5
  refine ⟨hu.1, hu.2.1, hu.2.2, ?_, fun _ _ _ _ _ _ _ => rfl⟩
  intro r i fuel hri
  have hstep := pollAux_step_continue t r i fuel s (by rw [hri]; exact hu.1)
  rwa [hri] at hstep

/-- Witness for C9: a lowercase unrecognized status value neither returns
nor throws and consumes one attempt with one sleep. -/
theorem poll_unknown_status_continues_witness :
    (AppVue.pollIter "t9"
        { status := some "weird", progress := some 5, stage := none,
          detail := none, content := none, processTime := none, code := none }
        initState).2 = none ∧
    (AppVue.pollIter "t9"
        { status := some "weird", progress := some 5, stage := none,
          detail := none, content := none, processTime := none, code := none }
        initState).1.sleeps = initState.sleeps + 1 := by
  have h := poll_unknown_status_continues "t9"
    { status := some "weird", progress := some 5, stage := none,
      detail := none, content := none, processTime := none, code := none }
    initState (by decide) (by decide) (by decide) (by decide) (by decide)
  exact ⟨h.1, h.2.2.1⟩

/-- Claim C10: upsertTask preserves uniqueness of task ids: when the list
holds at most one entry per taskId, so does the result; a patch whose
taskId is absent prepends exactly one fresh entry, and a patch whose
taskId is present patches the first matching entry in place, leaving every
other entry and the id sequence unchanged. -/
theorem upsertTask_unique_ids (l : List TaskItem) (p : Patch)
    (h : (l.map TaskItem.taskId).Nodup) :
    ((AppVue.upsertTask l p).map TaskItem.taskId).Nodup ∧
    ((l.any fun t => t.taskId == p.taskId) = false →
      AppVue.upsertTask l p = AppVue.newTaskOfPatch p :: l) ∧
    ((l.any fun t => t.taskId == p.taskId) = true →
      (AppVue.upsertTask l p).map TaskItem.taskId = l.map TaskItem.taskId) ∧
    (∀ (l1 : List TaskItem) (u : TaskItem) (l2 : List TaskItem),
      l = l1 ++ u :: l2 → (∀ v ∈ l1, v.taskId ≠ p.taskId) →
      u.taskId = p.taskId →
      AppVue.upsertTask l p = l1 ++ AppVue.applyPatch u p :: l2) := by
  refine ⟨upsert_nodup l p h, ?_, ?_, ?_⟩
  · intro ha
    rw [AppVue.upsertTask, if_neg (by simp [ha])]
  · intro ha
    rw [AppVue.upsertTask, if_pos ha, patchFirst_map]
  · intro l1 u l2 hl hv hu
    subst hl
    exact upsert_in_place p l1 u l2 hv hu

/-- Witness for C10: patching the only entry of a singleton list keeps its
single id and rewrites the entry in place. -/
theorem upsertTask_unique_ids_witness :
    ((AppVue.upsertTask [⟨"a", 1, "s", "PENDING"⟩]
        { taskId := "a", progress := some 7, stage := none,
          status := none }).map TaskItem.taskId).Nodup ∧
    AppVue.upsertTask [⟨"a", 1, "s", "PENDING"⟩]
        { taskId := "a", progress := some 7, stage := none, status := none }
      = [AppVue.applyPatch ⟨"a", 1, "s", "PENDING"⟩
          { taskId := "a", progress := some 7, stage := none, status := none }] := by
  have h := upsertTask_unique_ids [⟨"a", 1, "s", "PENDING"⟩]
    { taskId := "a", progress := some 7, stage := none, status := none }
    (by decide)
  exact ⟨h.1, h.2.2.2 [] ⟨"a", 1, "s", "PENDING"⟩ [] rfl (by simp) rfl⟩
